/-
Verification of the RSSky cache/identity layer and resilient summarization
pipeline (rssky/utils/helpers.py, rssky/core/cache_manager.py,
rssky/core/ai_processor.py), as a shallow embedding in Lean 4.

Python strings are modelled as Lean `String`, operated on through their
underlying `List Char`; machine-word arithmetic in SHA-1 is `Nat` with
explicit `% 2^32`.  File-system state is explicit state passing; fallible
I/O is modelled by explicit outcome parameters.
-/
import Mathlib

/-! ## Generic string helpers (kernel-computable replacements for the
    byte-indexed `String` library operations) -/

/-- Substring test: model of Python's `pat in s`. -/
def listContainsSub (pat : List Char) : List Char → Bool
  | [] => pat.isPrefixOf []
  | c :: rest => pat.isPrefixOf (c :: rest) || listContainsSub pat rest

def strContains (s pat : String) : Bool := listContainsSub pat.data s.data

/-- Model of Python's `str.split(sep)` for a one-character separator:
    `splitOnChar '/' "a//b".data = ["a".data, [], "b".data]`. -/
def splitOnChar (sep : Char) : List Char → List (List Char)
  | [] => [[]]
  | c :: rest =>
    match splitOnChar sep rest with
    | [] => if c = sep then [[], []] else [[c]]
    | h :: t => if c = sep then [] :: h :: t else (c :: h) :: t

/-- Python truthiness of an optional string (`None` and `""` are falsy). -/
def strTruthy : Option String → Bool
  | none => false
  | some s => s != ""

/-! ## `rssky/utils/helpers.py`: `safe_filename` -/

/-- Model of Python's regex class `\w` (with `re.UNICODE`, the default):
    ASCII letters, digits and underscore, plus all non-ASCII Unicode
    alphanumerics.  The non-ASCII part of the class is modelled exactly on
    the CJK Unified Ideographs block `U+4E00..U+9FFF` (all of which are
    category Lo, hence in `\w`); no other non-ASCII character is evaluated
    anywhere in this development. -/
def pyWordChar (c : Char) : Bool :=
  c.isAlphanum || c = '_' || (0x4E00 ≤ c.toNat && c.toNat ≤ 0x9FFF)

/-- Model of `unicodedata.normalize('NFKD', text)`.  NFKD is the identity
    on ASCII and on the CJK Unified Ideographs block, which are the only
    characters this development evaluates it on, so it is modelled as the
    identity map. -/
def nfkd (cs : List Char) : List Char := cs

/-- Model of `re.sub(r'[^\w\-\.]', '_', text)`. -/
def subNonWord (cs : List Char) : List Char :=
  cs.map (fun c => if pyWordChar c || c = '-' || c = '.' then c else '_')

/-- Model of `re.sub(r'_{2,}', '_', text)`: every maximal run of two or
    more underscores becomes a single underscore (the last of the run is
    kept; all underscores are equal, so which one is kept is immaterial). -/
def collapseUnderscores : List Char → List Char
  | [] => []
  | [c] => [c]
  | c :: d :: rest =>
    if c = '_' && d = '_' then collapseUnderscores (d :: rest)
    else c :: collapseUnderscores (d :: rest)

/-- Model of Python's `text.strip('_')`. -/
def stripUnderscores (cs : List Char) : List Char :=
  ((cs.dropWhile (· = '_')).reverse.dropWhile (· = '_')).reverse

/-- Shallow embedding of `safe_filename` (helpers.py lines 13-38):
    NFKD-normalize, replace characters outside `\w`, `-`, `.` by `_`,
    collapse runs of `_`, strip `_` at both ends, substitute `"untitled"`
    for the empty result, truncate to 100 characters. -/
def safe_filename (text : String) : String :=
  let t1 := nfkd text.data
  let t2 := subNonWord t1
  let t3 := collapseUnderscores t2
  let t4 := stripUnderscores t3
  let t5 := if t4.isEmpty then "untitled".data else t4
  ⟨t5.take 100⟩

/-- The sanitization pipeline as the (amended) specification words it,
    written independently of `safe_filename`: the run-collapsing step is a
    right fold that drops an underscore whenever another underscore
    immediately follows it.  Compared against `safe_filename` for the C6
    refinement theorem. -/
def sanitizeSpec (text : String) : String :=
  let replaced :=
    (nfkd text.data).map (fun c => if pyWordChar c || c = '-' || c = '.' then c else '_')
  let collapsed :=
    replaced.foldr (fun c acc => if c = '_' && acc.head? = some '_' then acc else c :: acc) []
  let trimmed := ((collapsed.dropWhile (· = '_')).reverse.dropWhile (· = '_')).reverse
  let defaulted := if trimmed = [] then "untitled".data else trimmed
  ⟨defaulted.take 100⟩

/-- The sanitization rule exactly as claim C6 words it: the kept character
    class is the ASCII set `[A-Za-z0-9_.-]` (no Unicode normalization, no
    Unicode word characters). -/
def claimedSanitizeC6 (text : String) : String :=
  let replaced :=
    text.data.map (fun c => if c.isAlphanum || c = '_' || c = '-' || c = '.' then c else '_')
  let collapsed := collapseUnderscores replaced
  let trimmed := stripUnderscores collapsed
  let defaulted := if trimmed = [] then "untitled".data else trimmed
  ⟨defaulted.take 100⟩

/-! ## SHA-1 (model of `hashlib.sha1(...).hexdigest()`), on `Nat` with
    explicit reduction mod `2^32` -/

def rotl32 (x : Nat) (k : Nat) : Nat :=
  ((x <<< k) ||| (x >>> (32 - k))) % 4294967296

/-- UTF-8 encoding of one code point (model of `str.encode('utf-8')`). -/
def utf8Char (c : Char) : List Nat :=
  let n := c.toNat
  if n < 0x80 then [n]
  else if n < 0x800 then [0xC0 ||| (n >>> 6), 0x80 ||| (n &&& 0x3F)]
  else if n < 0x10000 then
    [0xE0 ||| (n >>> 12), 0x80 ||| ((n >>> 6) &&& 0x3F), 0x80 ||| (n &&& 0x3F)]
  else
    [0xF0 ||| (n >>> 18), 0x80 ||| ((n >>> 12) &&& 0x3F),
     0x80 ||| ((n >>> 6) &&& 0x3F), 0x80 ||| (n &&& 0x3F)]

def utf8Bytes (s : String) : List Nat := s.data.flatMap utf8Char

/-- SHA-1 message padding: `0x80`, zeros to 56 mod 64, 8-byte big-endian
    bit length. -/
def sha1Pad (msg : List Nat) : List Nat :=
  let len := msg.length
  let bitLen := 8 * len
  let zeros := (55 + 64 - len % 64) % 64
  msg ++ [0x80] ++ List.replicate zeros 0 ++
    [(bitLen >>> 56) % 256, (bitLen >>> 48) % 256, (bitLen >>> 40) % 256,
     (bitLen >>> 32) % 256, (bitLen >>> 24) % 256, (bitLen >>> 16) % 256,
     (bitLen >>> 8) % 256, bitLen % 256]

/-- Big-endian 32-bit words of a byte list. -/
def toWords : List Nat → List Nat
  | b0 :: b1 :: b2 :: b3 :: rest =>
    ((b0 <<< 24) ||| (b1 <<< 16) ||| (b2 <<< 8) ||| b3) :: toWords rest
  | _ => []

/-- Extends the 16-word schedule by `n` further words. -/
def sha1ExtendGo : List Nat → Nat → List Nat
  | w, 0 => w
  | w, n+1 =>
    let i := w.length
    sha1ExtendGo
      (w ++ [rotl32 ((w.getD (i-3) 0) ^^^ (w.getD (i-8) 0) ^^^
                     (w.getD (i-14) 0) ^^^ (w.getD (i-16) 0)) 1]) n

def sha1F (t b c d : Nat) : Nat :=
  if t < 20 then (b &&& c) ||| ((b ^^^ 4294967295) &&& d)
  else if t < 40 then b ^^^ c ^^^ d
  else if t < 60 then (b &&& c) ||| (b &&& d) ||| (c &&& d)
  else b ^^^ c ^^^ d

def sha1K (t : Nat) : Nat :=
  if t < 20 then 0x5A827999 else if t < 40 then 0x6ED9EBA1
  else if t < 60 then 0x8F1BBCDC else 0xCA62C1D6

/-- The 80 rounds of one chunk, counting the remaining rounds down. -/
def sha1Round (w : List Nat) : Nat → Nat × Nat × Nat × Nat × Nat → Nat × Nat × Nat × Nat × Nat
  | 0, st => st
  | n+1, (a, b, c, d, e) =>
    let t := 80 - (n+1)
    let tmp := (rotl32 a 5 + sha1F t b c d + e + sha1K t + w.getD t 0) % 4294967296
    sha1Round w n (tmp, a, rotl32 b 30, c, d)

/-- Chunk loop; the fuel is an upper bound on the chunk count so that the
    recursion is structural (and hence kernel-computable). -/
def sha1Loop : Nat → List Nat → Nat × Nat × Nat × Nat × Nat → Nat × Nat × Nat × Nat × Nat
  | 0, _, h => h
  | _, [], h => h
  | fuel+1, bytes, (h0, h1, h2, h3, h4) =>
    let w := sha1ExtendGo (toWords (bytes.take 64)) 64
    let (a, b, c, d, e) := sha1Round w 80 (h0, h1, h2, h3, h4)
    sha1Loop fuel (bytes.drop 64)
      ((h0 + a) % 4294967296, (h1 + b) % 4294967296, (h2 + c) % 4294967296,
       (h3 + d) % 4294967296, (h4 + e) % 4294967296)

def hexDigit (n : Nat) : Char :=
  if n < 10 then Char.ofNat (48 + n) else Char.ofNat (87 + n)

def hex8 (n : Nat) : List Char :=
  [hexDigit ((n >>> 28) % 16), hexDigit ((n >>> 24) % 16), hexDigit ((n >>> 20) % 16),
   hexDigit ((n >>> 16) % 16), hexDigit ((n >>> 12) % 16), hexDigit ((n >>> 8) % 16),
   hexDigit ((n >>> 4) % 16), hexDigit (n % 16)]

/-- Model of `hashlib.sha1(s.encode('utf-8')).hexdigest()`. -/
def sha1Hex (s : String) : String :=
  let padded := sha1Pad (utf8Bytes s)
  let (h0, h1, h2, h3, h4) :=
    sha1Loop padded.length padded (0x67452301, 0xEFCDAB89, 0x98BADCFE, 0x10325476, 0xC3D2E1F0)
  ⟨hex8 h0 ++ hex8 h1 ++ hex8 h2 ++ hex8 h3 ++ hex8 h4⟩

/-- Model of `hashlib.sha1(s.encode('utf-8')).hexdigest()[:8]`. -/
def sha1First8 (s : String) : String := ⟨(sha1Hex s).data.take 8⟩

/-! ## `rssky/core/cache_manager.py`: item identity -/

/-- A feed entry: the Python code reads entries as dicts via `.get`, so
    every field is optional.  Only the fields the embedded code consults
    are modelled. -/
structure Entry where
  title : Option String := none
  link : Option String := none
  id : Option String := none
  published : Option String := none
  updated : Option String := none
  feed_title : Option String := none
  feed_id : Option String := none

/-- Shallow embedding of `CacheManager.create_entry_cache_key`
    (cache_manager.py lines 58-82).  `entry.get('link') or
    entry.get('id', '')` is Python truthy-or; the missing-title branch
    falls back to `'missing_id'` when the locator is empty, and only when
    the key contains `/` keeps the last `/`-segment and — nested inside
    that branch, as in the source — the last `=`-segment of it, hashing
    the result. -/
def create_entry_cache_key (entry : Entry) : String :=
  let unique_part := if strTruthy entry.link then entry.link.getD "" else entry.id.getD ""
  if !strTruthy entry.title then
    let base0 := if unique_part != "" then unique_part else "missing_id"
    let base2 :=
      if base0.data.contains '/' then
        let base1 := (splitOnChar '/' base0.data).getLastD []
        if base1.contains '=' then (splitOnChar '=' base1).getLastD [] else base1
      else base0.data
    "entry_" ++ sha1First8 ⟨base2⟩
  else
    let sanitized_title := safe_filename (entry.title.getD "")
    sanitized_title ++ "_" ++ sha1First8 unique_part

/-- Model of `CacheManager.generate_feed_id` (cache_manager.py lines
    39-50): sanitized title plus 8-character URL hash, or the bare
    40-character hash when no title is given. -/
def generate_feed_id (feed_url : String) (feed_title : Option String) : String :=
  if strTruthy feed_title then safe_filename (feed_title.getD "") ++ "_" ++ sha1First8 feed_url
  else sha1Hex feed_url

/-! ## JSON values and the resilient extractor
    (`AIProcessor._extract_json_from_string`, ai_processor.py lines 443-472)

    `demjson3.decode` / `demjson3.encode` are an external library; they are
    modelled here by a lenient JSON parser (tolerating `//` and `/* */`
    comments, trailing commas in objects and arrays, and
    identifier-like unquoted object keys) followed by a strict compact
    re-encoder.  Restrictions of the model: numeric literals are decimal
    integers, and string escapes cover the common single-character
    escapes. -/

inductive JVal where
  | null
  | bool (b : Bool)
  | num (n : Int)
  | str (s : String)
  | arr (elems : List JVal)
  | obj (fields : List (String × JVal))

abbrev JObj := List (String × JVal)

/-- Dict lookup (`d[k]` / `d.get(k)`): first binding of the key. -/
def jget (o : JObj) (k : String) : Option JVal :=
  (o.find? (fun p => p.1 == k)).map (fun p => p.2)

def jhas (o : JObj) (k : String) : Bool := (o.find? (fun p => p.1 == k)).isSome

/-- Dict update (`d[k] = v`): replaces the binding in place if the key
    exists (Python dicts keep insertion order), appends otherwise. -/
def jset (o : JObj) (k : String) (v : JVal) : JObj :=
  if jhas o k then o.map (fun p => if p.1 == k then (k, v) else p)
  else o ++ [(k, v)]

/-- Dict removal (`d.pop(k)`). -/
def jerase (o : JObj) (k : String) : JObj := o.filter (fun p => !(p.1 == k))

/-- Python truthiness of a decoded JSON value. -/
def jtruthy : JVal → Bool
  | .null => false
  | .bool b => b
  | .num n => n != 0
  | .str s => s != ""
  | .arr xs => !xs.isEmpty
  | .obj fs => !fs.isEmpty

def isWsChar (c : Char) : Bool := c = ' ' || c = '\t' || c = '\n' || c = '\r'

/-- Consume the rest of a `//` line comment. -/
def dropLine : List Char → List Char
  | [] => []
  | '\n' :: rest => rest
  | _ :: rest => dropLine rest

/-- Consume the rest of a `/* */` block comment. -/
def dropBlock : List Char → List Char
  | [] => []
  | '*' :: '/' :: rest => rest
  | _ :: rest => dropBlock rest

/-- Skip whitespace and comments (fuelled so the recursion is structural). -/
def skipAllF : Nat → List Char → List Char
  | 0, cs => cs
  | fuel+1, cs =>
    match cs with
    | [] => []
    | '/' :: '/' :: r2 => skipAllF fuel (dropLine r2)
    | '/' :: '*' :: r2 => skipAllF fuel (dropBlock r2)
    | c :: rest => if isWsChar c then skipAllF fuel rest else cs

def skipAll (cs : List Char) : List Char := skipAllF cs.length cs

/-- String-literal body after the opening double quote, handling the
    common single-character escapes. -/
def parseStrChars : List Char → Option (List Char × List Char)
  | [] => none
  | '\x22' :: rest => some ([], rest)
  | '\\' :: e :: rest =>
    let esc : Option Char :=
      if e = '\x22' then some '\x22' else if e = '\\' then some '\\'
      else if e = '/' then some '/' else if e = 'n' then some '\n'
      else if e = 't' then some '\t' else if e = 'r' then some '\r'
      else if e = 'b' then some '\x08' else if e = 'f' then some '\x0c'
      else none
    match esc with
    | some ec => (parseStrChars rest).map (fun p => (ec :: p.1, p.2))
    | none => none
  | c :: rest => (parseStrChars rest).map (fun p => (c :: p.1, p.2))

def isIdentChar (c : Char) : Bool := c.isAlphanum || c = '_' || c = '$'

/-- An object key: quoted string or bare identifier. -/
def parseKey (cs : List Char) : Option (String × List Char) :=
  match cs with
  | '\x22' :: rest => (parseStrChars rest).map (fun p => (⟨p.1⟩, p.2))
  | c :: _ =>
    if c.isAlpha || c = '_' || c = '$' then
      let p := cs.span isIdentChar
      some (⟨p.1⟩, p.2)
    else none
  | [] => none

def digitsVal (cs : List Char) : Nat := cs.foldl (fun a c => 10 * a + (c.toNat - 48)) 0

/-- Keyword or (integer) numeric literal. -/
def parseLit (cs : List Char) : Option (JVal × List Char) :=
  match cs with
  | [] => none
  | '-' :: rest =>
    let p := rest.span (fun c => c.isDigit)
    if p.1.isEmpty then none else some (.num (-(digitsVal p.1 : Int)), p.2)
  | c :: _ =>
    if c.isDigit then
      let p := cs.span (fun c => c.isDigit)
      some (.num (digitsVal p.1 : Int), p.2)
    else if c.isAlpha then
      let p := cs.span (fun c => c.isAlpha)
      if (⟨p.1⟩ : String) = "true" then some (.bool true, p.2)
      else if (⟨p.1⟩ : String) = "false" then some (.bool false, p.2)
      else if (⟨p.1⟩ : String) = "null" then some (.null, p.2)
      else none
    else none

/-- Duplicate keys in a decoded object: the last occurrence wins, as for
    a Python dict literal. -/
def dedupFields (fs : List (String × JVal)) : JObj :=
  fs.foldl (fun acc p => jset acc p.1 p.2) []

/-- A partially parsed container on the parser stack. -/
inductive PFrame where
  | arrF (items : List JVal)
  | objF (fields : List (String × JVal)) (key : String)

/-- The lenient parser as a single fuelled stack machine (so that it is
    structural and kernel-computable).  `done = some v` means the value
    `v` was just completed and the innermost open container must be
    reduced; `done = none` means a value is expected next. -/
def parseRun : Nat → List PFrame → Option JVal → List Char → Option (JVal × List Char)
  | 0, _, _, _ => none
  | fuel+1, stack, some v, cs =>
    match stack with
    | [] => some (v, cs)
    | .arrF items :: stk =>
      match skipAll cs with
      | ']' :: rest => parseRun fuel stk (some (.arr (items ++ [v]))) rest
      | ',' :: rest =>
        match skipAll rest with
        | ']' :: r2 => parseRun fuel stk (some (.arr (items ++ [v]))) r2
        | rest' => parseRun fuel (.arrF (items ++ [v]) :: stk) none rest'
      | _ => none
    | .objF fields key :: stk =>
      match skipAll cs with
      | '\x7d' :: rest => parseRun fuel stk (some (.obj (dedupFields (fields ++ [(key, v)])))) rest
      | ',' :: rest =>
        match skipAll rest with
        | '\x7d' :: r2 => parseRun fuel stk (some (.obj (dedupFields (fields ++ [(key, v)])))) r2
        | rest' =>
          match parseKey rest' with
          | some (k2, r2) =>
            match skipAll r2 with
            | ':' :: r3 => parseRun fuel (.objF (fields ++ [(key, v)]) k2 :: stk) none r3
            | _ => none
          | none => none
      | _ => none
  | fuel+1, stack, none, cs =>
    match skipAll cs with
    | '\x7b' :: rest =>
      match skipAll rest with
      | '\x7d' :: r2 => parseRun fuel stack (some (.obj [])) r2
      | rest' =>
        match parseKey rest' with
        | some (k, r2) =>
          match skipAll r2 with
          | ':' :: r3 => parseRun fuel (.objF [] k :: stack) none r3
          | _ => none
        | none => none
    | '[' :: rest =>
      match skipAll rest with
      | ']' :: r2 => parseRun fuel stack (some (.arr [])) r2
      | rest' => parseRun fuel (.arrF [] :: stack) none rest'
    | '\x22' :: rest =>
      match parseStrChars rest with
      | some (s, r) => parseRun fuel stack (some (.str ⟨s⟩)) r
      | none => none
    | cs' =>
      match parseLit cs' with
      | some (v, r) => parseRun fuel stack (some v) r
      | none => none

/-- Model of `demjson3.decode`: one lenient document, with only
    whitespace/comments allowed after it. -/
def lenientDecode (s : String) : Option JVal :=
  match parseRun (2 * s.data.length + 2) [] none s.data with
  | some (v, rest) => if (skipAll rest).isEmpty then some v else none
  | none => none

def joinComma : List String → String
  | [] => ""
  | [s] => s
  | s :: s2 :: rest => s ++ "," ++ joinComma (s2 :: rest)

def escCharOut (c : Char) : List Char :=
  if c = '\x22' then ['\\', '\x22'] else if c = '\\' then ['\\', '\\']
  else if c = '\n' then ['\\', 'n'] else if c = '\r' then ['\\', 'r']
  else if c = '\t' then ['\\', 't'] else [c]

def escapeStr (s : String) : String := ⟨s.data.flatMap escCharOut⟩

def natDigitsRev : Nat → Nat → List Char
  | 0, _ => []
  | fuel+1, n =>
    if n < 10 then [hexDigit n]
    else hexDigit (n % 10) :: natDigitsRev fuel (n / 10)

def intToStr (n : Int) : String :=
  match n with
  | .ofNat m => ⟨(natDigitsRev (m+1) m).reverse⟩
  | .negSucc m => ⟨'-' :: (natDigitsRev (m+2) (m+1)).reverse⟩

/-- Model of `demjson3.encode`: strict compact JSON text (fuelled by an
    upper bound on the value depth so the recursion is structural). -/
def encodeJF : Nat → JVal → String
  | 0, _ => ""
  | fuel+1, v =>
    match v with
    | .null => "null"
    | .bool b => if b then "true" else "false"
    | .num n => intToStr n
    | .str s => "\x22" ++ escapeStr s ++ "\x22"
    | .arr xs => "[" ++ joinComma (xs.map (encodeJF fuel)) ++ "]"
    | .obj fs =>
      "\x7b" ++
        joinComma (fs.map (fun p => "\x22" ++ escapeStr p.1 ++ "\x22:" ++ encodeJF fuel p.2)) ++
      "\x7d"

/-- Model of Python `str.strip()` (whitespace at both ends). -/
def trimList (cs : List Char) : List Char :=
  ((cs.dropWhile isWsChar).reverse.dropWhile isWsChar).reverse

/-- Index of the last occurrence of `c` (model of `str.rfind`). -/
def rfindIdx (cs : List Char) (c : Char) : Option Nat :=
  (cs.reverse.findIdx? (· = c)).map (fun i => cs.length - 1 - i)

/-- Shallow embedding of `AIProcessor._extract_json_from_string`
    (ai_processor.py lines 443-472): strip, slice from the first `{` to
    the last `}` inclusive, leniently decode, re-encode strictly.  As in
    the source, failure is the empty string (the callers test the result
    for truthiness).  The depth of a decoded value is below the length of
    the decoded text, so the encoder fuel is not limiting. -/
def extract_json_from_string (s : String) : String :=
  let cs := trimList s.data
  match cs.findIdx? (· = '\x7b') with
  | none => ""
  | some start_brace =>
    match rfindIdx cs '\x7d' with
    | none => ""
    | some end_brace =>
      let json_chars := (cs.drop start_brace).take (end_brace + 1 - start_brace)
      match lenientDecode ⟨json_chars⟩ with
      | some v => encodeJF (json_chars.length + 1) v
      | none => ""

/-! ## `AIProcessor.summarize_entry` (ai_processor.py lines 46-151)

    The upstream service is a stub `stub : Nat → Option JVal` indexed by
    the call count: `_make_ai_request` never raises (it catches its own
    exceptions and returns `(errorText, None)`), and only its parsed
    component is consulted by the control flow, so one call is modelled by
    its parsed result.  The debug-file writes have no observable effect on
    the cache or the returned value and are omitted.  Cached content is a
    string (the `isinstance(content, list)` branch cannot trigger for
    content read from the cache file). -/

/-- The error-sentinel test of ai_processor.py line 118. -/
def isSentinelSummary (s : String) : Bool :=
  strContains s "could not be extracted" || strContains s "parsing error" ||
    strContains s "API request failed"

/-- The cache slots for one `(feed_id, entry_id)` pair; `summarize_entry`
    touches no other slot, and the identity derivation is deterministic,
    so the state is that slot.  A cached summary written by this pipeline
    is always a JSON object. -/
structure EntryCache where
  content : Option String := none
  summary : Option JObj := none

/-- Ambient date handling for `_generate_fallback_summary`: `nowDate` is
    `datetime.now().strftime('%Y-%m-%d')`; `parseDate d` is
    `parser.parse(d).strftime('%Y-%m-%d')`, `none` when parsing raises. -/
structure Env where
  nowDate : String
  parseDate : String → Option String

/-- Shallow embedding of `AIProcessor._generate_fallback_summary`
    (ai_processor.py lines 474-508) for dict entries. -/
def generate_fallback_summary (env : Env) (entry : Entry) : JObj :=
  let entry_title := entry.title.getD "Unknown"
  let entry_date := if strTruthy entry.published then entry.published else entry.updated
  let formatted_date :=
    if strTruthy entry_date then (env.parseDate (entry_date.getD "")).getD env.nowDate
    else env.nowDate
  [("importance", .num 5),
   ("summary", .str ("Summary could not be extracted for: " ++ entry_title)),
   ("impact", .str "Impact could not be determined due to processing error."),
   ("date", .str formatted_date)]

/-- One retry round of `summarize_entry` (ai_processor.py lines 99-151),
    with `remaining` the number of attempts left (`remaining = 1` is the
    `attempt == max_attempts` case) and `calls` the upstream invocations
    made so far.  A truthy non-dict parsed value raises on
    `parsed_response.get` and a present non-string `summary` field raises
    on the `in` test; both land in the `except` branch, which retries and
    falls back on the last attempt.  The `remaining = 0` case is the
    defensive fallback after the loop (dead code in the source). -/
def summarizeLoop (env : Env) (stub : Nat → Option JVal) (entry : Entry) :
    Nat → Nat → EntryCache → JObj × EntryCache × Nat
  | 0, calls, c =>
    let fb := generate_fallback_summary env entry
    (fb, { c with summary := some fb }, calls)
  | r+1, calls, c =>
    let parsed := stub calls
    let calls := calls + 1
    match parsed with
    | some v =>
      if jtruthy v then
        match v with
        | .obj o =>
          match jget o "summary" with
          | some (.str stext) =>
            if isSentinelSummary stext then
              if r = 0 then (o, { c with summary := some o }, calls)
              else summarizeLoop env stub entry r calls c
            else
              let o' := jset (jset (jset o "url" (.str (entry.link.getD "")))
                "title" (.str (entry.title.getD ""))) "full_content_available" (.bool true)
              (o', { c with summary := some o' }, calls)
          | none =>
            let o' := jset (jset (jset o "url" (.str (entry.link.getD "")))
              "title" (.str (entry.title.getD ""))) "full_content_available" (.bool true)
            (o', { c with summary := some o' }, calls)
          | some _ =>
            if r = 0 then
              let fb := generate_fallback_summary env entry
              (fb, { c with summary := some fb }, calls)
            else summarizeLoop env stub entry r calls c
        | _ =>
          if r = 0 then
            let fb := generate_fallback_summary env entry
            (fb, { c with summary := some fb }, calls)
          else summarizeLoop env stub entry r calls c
      else
        if r = 0 then
          let fb := generate_fallback_summary env entry
          (fb, { c with summary := some fb }, calls)
        else summarizeLoop env stub entry r calls c
    | none =>
      if r = 0 then
        let fb := generate_fallback_summary env entry
        (fb, { c with summary := some fb }, calls)
      else summarizeLoop env stub entry r calls c

/-- Shallow embedding of `AIProcessor.summarize_entry` (ai_processor.py
    lines 46-151).  Result: the returned summary record, the updated cache
    slot, and the number of upstream invocations.  `create_entry_cache_key`
    is total on dict entries, so its `except` branch is dead; `if not
    content:` and `if cached_summary:` are Python truthiness tests. -/
def summarize_entry (env : Env) (stub : Nat → Option JVal) (entry : Entry)
    (force : Bool) (c : EntryCache) : JObj × EntryCache × Nat :=
  if !strTruthy c.content then
    let fb := generate_fallback_summary env entry
    (fb, { c with summary := some fb }, 0)
  else if !force && (match c.summary with | some s => !s.isEmpty | none => false) then
    (c.summary.getD [], c, 0)
  else
    summarizeLoop env stub entry 3 0 c

/-! ## `AIProcessor.generate_digest` (ai_processor.py lines 153-302) -/

/-- Model of Python `float(s)` on the integer fragment (the only numeric
    strings this development evaluates): optional sign and decimal
    digits. -/
def parsePyNum (s : String) : Option Int :=
  match s.data with
  | [] => none
  | '-' :: rest => if rest ≠ [] && rest.all (fun c => c.isDigit) then some (-(digitsVal rest : Int)) else none
  | cs => if cs.all (fun c => c.isDigit) then some (digitsVal cs : Int) else none

/-- The importance normalization of ai_processor.py lines 176-181:
    `summary.get('importance', 0)`, string coerced via `float`, default 5
    on coercion failure.  A value on which Python's `>= 5` would raise
    `TypeError` (null, list, dict) is `.error ()`; Python booleans are
    numeric. -/
def coerceImportance (v : JVal) : Except Unit Int :=
  match v with
  | .num n => .ok n
  | .str s => .ok ((parsePyNum s).getD 5)
  | .bool b => .ok (if b then 1 else 0)
  | _ => .error ()

/-- The per-entry step of the digest batch construction (ai_processor.py
    lines 159-207): read the cached summary, skip a missing or falsy one,
    include when importance ≥ 5 or the summary text contains a failure
    sentinel, defaulting missing echo fields first.  `.error ()` models an
    uncaught `TypeError` (non-numeric importance, or a sentinel test on a
    present non-string summary field; the tests short-circuit left to
    right). -/
def entryDigestItem (cache : String → String → Option JObj) (e : Entry) :
    Except Unit (Option JVal) :=
  let feed_title := e.feed_title.getD ""
  let feed_id := e.feed_id.getD ""
  let entry_id := create_entry_cache_key e
  match cache feed_id entry_id with
  | none => .ok none
  | some summary =>
    if summary.isEmpty then .ok none
    else
      match coerceImportance ((jget summary "importance").getD (.num 0)) with
      | .error () => .error ()
      | .ok importance =>
        let included : Except Unit Bool :=
          if importance ≥ 5 then .ok true
          else
            match jget summary "summary" with
            | some (.str st) =>
              .ok (strContains st "API request failed" || strContains st "could not be extracted")
            | none => .ok false
            | some _ => .error ()
        match included with
        | .error () => .error ()
        | .ok false => .ok none
        | .ok true =>
          let s1 := if jhas summary "title" then summary else summary ++ [("title", .str (e.title.getD ""))]
          let s2 := if jhas s1 "date" then s1 else s1 ++ [("date", .str (e.published.getD ""))]
          let s3 := if jhas s2 "url" then s2 else s2 ++ [("url", .str (e.link.getD ""))]
          let s4 := if jhas s3 "feed" then s3 else s3 ++ [("feed", .str feed_title)]
          .ok (some (.obj
            [("title", .str (e.title.getD "")),
             ("summary", .obj s4),
             ("date", .str (e.published.getD "")),
             ("url", .str (e.link.getD "")),
             ("feed", .str feed_title)]))

/-- `entries_with_summaries` of ai_processor.py lines 157-207, with a
    `TypeError` propagating from the first offending entry. -/
def buildBatch (cache : String → String → Option JObj) : List Entry → Except Unit (List JVal)
  | [] => .ok []
  | e :: rest =>
    match entryDigestItem cache e with
    | .error () => .error ()
    | .ok none => buildBatch cache rest
    | .ok (some item) => (buildBatch cache rest).map (fun l => item :: l)

/-- Outcome of `generate_digest`: a returned digest with its upstream call
    count, the `RuntimeError` raised after exhausting the retries, or an
    uncaught `TypeError` from the batch construction. -/
inductive DigestOutcome where
  | ok (result : JObj) (calls : Nat)
  | aborted (calls : Nat)
  | typeError

/-- The digest retry loop (ai_processor.py lines 265-302): up to 3
    attempts; a parsed dict gets its `news` / `newsStories` key renamed to
    `stories` and is accepted when truthy with a `stories` key; anything
    else retries; exhaustion raises. -/
def digestLoop (stub : Nat → Option JVal) : Nat → Nat → DigestOutcome
  | 0, calls => .aborted calls
  | n+1, calls =>
    let parsed := stub calls
    let calls := calls + 1
    match parsed with
    | some v =>
      match v with
      | .obj o =>
        let o :=
          if jtruthy (.obj o) then
            if jhas o "news" then jset (jerase o "news") "stories" ((jget o "news").getD .null)
            else if jhas o "newsStories" then
              jset (jerase o "newsStories") "stories" ((jget o "newsStories").getD .null)
            else o
          else o
        if jtruthy (.obj o) && jhas o "stories" then .ok o calls
        else digestLoop stub n calls
      | _ => digestLoop stub n calls
    | none => digestLoop stub n calls

/-- Shallow embedding of `AIProcessor.generate_digest` (ai_processor.py
    lines 153-302).  The prompt assembly and debug writes have no
    observable effect and are omitted; the upstream stub is indexed by the
    call count. -/
def generate_digest (cache : String → String → Option JObj) (stub : Nat → Option JVal)
    (entries : List Entry) : DigestOutcome :=
  match buildBatch cache entries with
  | .error () => .typeError
  | .ok [] => .ok [("high_impact", .arr []), ("significant", .arr [])] 0
  | .ok (_ :: _) => digestLoop stub 3 0

/-! ## `CacheManager` storage operations -/

/-- Whether a backing-store write succeeds or raises an `IOError`-like
    exception (the `except` branches of cache_manager.py lines 192-193 and
    225-226). -/
inductive WriteOutcome where
  | ok
  | ioError

/-- Shallow embedding of `CacheManager.cache_content` (cache_manager.py
    lines 179-193): on success the file is written and the content is
    returned; on an I/O failure the exception is logged and swallowed and
    the function falls off its end, returning `None`. -/
def cache_content (w : WriteOutcome) (c : EntryCache) (content : String) :
    EntryCache × Option String :=
  match w with
  | .ok => ({ c with content := some content }, some content)
  | .ioError => (c, none)

/-- Shallow embedding of `CacheManager.cache_summary` (cache_manager.py
    lines 213-226), with the same shape as `cache_content`. -/
def cache_summary (w : WriteOutcome) (c : EntryCache) (summary_data : JObj) :
    EntryCache × Option JObj :=
  match w with
  | .ok => ({ c with summary := some summary_data }, some summary_data)
  | .ioError => (c, none)

/-- The raw-feed snapshot file for one source, as `get_cached_feed` can
    find it: missing, unreadable (JSON decode error or `IOError`), or a
    payload whose `timestamp` field may be absent.  Timestamps are seconds
    since the epoch. -/
inductive FeedFile where
  | missing
  | unreadable
  | data (timestamp : Option Int)

/-- Shallow embedding of `CacheManager.get_cached_feed` (cache_manager.py
    lines 152-177): absent on a missing or unreadable file; a missing
    `timestamp` field defaults to 0; too old when
    `now - timestamp > max_age_hours * 3600`. -/
def get_cached_feed (now : Int) (f : FeedFile) (max_age_hours : Int) : Option (Option Int) :=
  match f with
  | .missing => none
  | .unreadable => none
  | .data ts =>
    let cache_time := ts.getD 0
    let cache_age := now - cache_time
    let max_age_seconds := max_age_hours * 3600
    if cache_age > max_age_seconds then none else some ts

/-- One source subtree: the source-level `rawfeed.json` (a file, hence
    skipped by the `entry_dir.is_dir()` test of the sweep) and the item
    subdirectories with their mtimes. -/
structure FeedDir where
  rawfeed : Option Int := none
  entries : List (String × Int) := []

/-- The whole cache: one subtree per source identity. -/
structure CacheTree where
  feeds : List (String × FeedDir) := []

/-- Shallow embedding of `CacheManager.clean_old_cache` (cache_manager.py
    lines 275-316) on the happy path (no deletion failures, which the
    source only logs): every item subdirectory with
    `mtime < cutoff` is removed; `cutoff` is
    `(now - timedelta(days)).timestamp()`, passed here in seconds. -/
def clean_old_cache (cutoff : Int) (t : CacheTree) : CacheTree :=
  { feeds := t.feeds.map (fun p =>
      (p.1, { p.2 with entries := p.2.entries.filter (fun q => !(q.2 < cutoff)) })) }

/-- Observation of a record's summary text (`.get("summary", "")` for a
    string-valued field), used to compare records. -/
def jgetStr (o : JObj) (k : String) : String :=
  match jget o k with
  | some (.str s) => s
  | _ => ""

/-! ## Helper lemmas -/

theorem string_eq_empty_of_data {s : String} (h : s.data = []) : s = "" := by
  cases s with
  | mk l => cases h; rfl

theorem string_ne_empty_of_data {s : String} (h : s.data ≠ []) : s ≠ "" := by
  intro he
  subst he
  exact h rfl

theorem append_ne_empty_left {s t : String} (h : s ≠ "") : s ++ t ≠ "" := by
  intro he
  have hd : (s ++ t).data = [] := by rw [he]
  rw [String.data_append] at hd
  exact h (string_eq_empty_of_data (List.append_eq_nil.mp hd).1)

theorem take100_ne_nil {l : List Char} (h : l ≠ []) : l.take 100 ≠ [] := by
  intro he
  have h1 : (l.take 100).length = 0 := by rw [he]; rfl
  rw [List.length_take] at h1
  have h2 := List.length_pos.mpr h
  rw [Nat.min_def] at h1
  split at h1 <;> omega

theorem safe_filename_ne_empty (s : String) : safe_filename s ≠ "" := by
  unfold safe_filename
  apply string_ne_empty_of_data
  by_cases h : (stripUnderscores (collapseUnderscores (subNonWord (nfkd s.data)))).isEmpty
  · simp only [h, if_true]
    exact take100_ne_nil (by decide)
  · simp only [h, if_false]
    exact take100_ne_nil (List.isEmpty_eq_false.mp (by simpa using h))

theorem safe_filename_le_100 (s : String) : (safe_filename s).data.length ≤ 100 := by
  unfold safe_filename
  simp [List.length_take]

theorem jget_isEmpty_false {o : JObj} {k : String} {v : JVal} (h : jget o k = some v) :
    o.isEmpty = false := by
  cases o with
  | nil => simp [jget] at h
  | cons a l => simp

theorem jhas_of_jget {o : JObj} {k : String} {v : JVal} (h : jget o k = some v) :
    jhas o k = true := by
  unfold jget at h
  unfold jhas
  cases hf : o.find? (fun p => p.1 == k) with
  | none => rw [hf] at h; simp at h
  | some p => simp

theorem jset_isEmpty_false (o : JObj) (k : String) (v : JVal) :
    (jset o k v).isEmpty = false := by
  unfold jset
  split
  · rename_i h
    cases o with
    | nil => simp [jhas] at h
    | cons a l => simp
  · simp

theorem jhas_filter_false {o : JObj} {k : String} (p : String × JVal → Bool)
    (h : jhas o k = false) : jhas (o.filter p) k = false := by
  unfold jhas at h ⊢
  cases hf : List.find? (fun q => q.1 == k) o with
  | none =>
    cases hg : List.find? (fun q => q.1 == k) (o.filter p) with
    | none => rfl
    | some q =>
      have hm := List.mem_of_find?_eq_some hg
      have hq := List.find?_some hg
      have := List.find?_eq_none.mp hf q (List.mem_filter.mp hm).1
      simp [hq] at this
  | some q => rw [hf] at h; simp at h

theorem jhas_append_singleton (o : JObj) (k : String) (v : JVal) :
    jhas (o ++ [(k, v)]) k = true := by
  unfold jhas
  rw [List.find?_append]
  cases hf : o.find? (fun p => p.1 == k) with
  | none => simp [List.find?]
  | some p => simp

/-! ## C2 -/

/-- C2: when the upstream responses parse into records whose summary text
    matches an error-sentinel phrase on every attempt, `summarize_entry`
    makes exactly 3 upstream invocations and then caches and returns the
    third attempt's parsed record itself. -/
theorem C2_sentinel_persisted
    (env : Env) (stub : Nat → Option JVal) (e : Entry) (c : EntryCache) (t : String)
    (o0 o1 o2 : JObj) (s0 s1 s2 : String)
    (hc : c.content = some t) (ht : t ≠ "") (hs : c.summary = none)
    (h0 : stub 0 = some (.obj o0)) (h1 : stub 1 = some (.obj o1)) (h2 : stub 2 = some (.obj o2))
    (hg0 : jget o0 "summary" = some (.str s0)) (hg1 : jget o1 "summary" = some (.str s1))
    (hg2 : jget o2 "summary" = some (.str s2))
    (hb0 : isSentinelSummary s0 = true) (hb1 : isSentinelSummary s1 = true)
    (hb2 : isSentinelSummary s2 = true) :
    summarize_entry env stub e false c = (o2, { c with summary := some o2 }, 3) := by
  have hn0 := jget_isEmpty_false hg0
  have hn1 := jget_isEmpty_false hg1
  have hn2 := jget_isEmpty_false hg2
  simp only [summarize_entry, hc, hs, strTruthy]
  simp only [show (t != "") = true by simpa using ht]
  simp only [summarizeLoop, h0, h1, h2, jtruthy, hn0, hn1, hn2, hg0, hg1, hg2, hb0, hb1, hb2]
  simp [hc]

/-- C2 witness: a concrete run in which every attempt parses to the same
    sentinel record. -/
theorem C2_witness :
    summarize_entry ⟨"2026-01-01", fun _ => none⟩
      (fun _ => some (.obj [("summary", .str "parsing error near line 1")]))
      { title := some "T" } false ⟨some "cached text", none⟩ =
      ([("summary", JVal.str "parsing error near line 1")],
       { content := some "cached text",
         summary := some [("summary", JVal.str "parsing error near line 1")] }, 3) :=
  C2_sentinel_persisted ⟨"2026-01-01", fun _ => none⟩
    (fun _ => some (.obj [("summary", .str "parsing error near line 1")]))
    { title := some "T" } ⟨some "cached text", none⟩ "cached text"
    [("summary", .str "parsing error near line 1")]
    [("summary", .str "parsing error near line 1")]
    [("summary", .str "parsing error near line 1")]
    "parsing error near line 1" "parsing error near line 1" "parsing error near line 1"
    rfl (by decide) rfl rfl rfl rfl rfl rfl rfl (by decide) (by decide) (by decide)

/-! ## C3 -/

/-- C3 (counterexample): with no cached content and an upstream stub whose
    responses never parse, `summarize_entry` makes 0 upstream invocations,
    not 3 as the claim states; the cached result is the fallback sentinel
    with importance 5. -/
theorem C3_counterexample :
    (summarize_entry ⟨"2026-01-01", fun _ => none⟩ (fun _ => none) {} false ⟨none, none⟩).2.2 = 0 ∧
    ¬ (summarize_entry ⟨"2026-01-01", fun _ => none⟩ (fun _ => none) {} false ⟨none, none⟩).2.2 = 3 ∧
    (summarize_entry ⟨"2026-01-01", fun _ => none⟩ (fun _ => none) {} false ⟨none, none⟩).2.1.summary =
      some [("importance", JVal.num 5),
            ("summary", JVal.str "Summary could not be extracted for: Unknown"),
            ("impact", JVal.str "Impact could not be determined due to processing error."),
            ("date", JVal.str "2026-01-01")] ∧
    jget [("importance", JVal.num 5),
          ("summary", JVal.str "Summary could not be extracted for: Unknown"),
          ("impact", JVal.str "Impact could not be determined due to processing error."),
          ("date", JVal.str "2026-01-01")] "importance" = some (JVal.num 5) :=
  ⟨rfl, by decide, rfl, rfl⟩

/-- C3 (amended): when no cached content exists for the entry (whatever
    the upstream stub would answer), `summarize_entry` makes exactly 0
    upstream invocations, short-circuiting to the fallback sentinel record
    with importance 5, which it caches and returns. -/
theorem C3_no_content_fallback
    (env : Env) (stub : Nat → Option JVal) (e : Entry) (force : Bool) (c : EntryCache)
    (h : strTruthy c.content = false) :
    summarize_entry env stub e force c =
      (generate_fallback_summary env e,
       { c with summary := some (generate_fallback_summary env e) }, 0) ∧
    jget (generate_fallback_summary env e) "importance" = some (.num 5) := by
  constructor
  · simp [summarize_entry, h]
  · rfl

/-- C3 witness: the amended theorem applied to a concrete empty cache
    slot. -/
theorem C3_witness :
    summarize_entry ⟨"2026-01-01", fun _ => none⟩ (fun _ => none) {} false ⟨none, none⟩ =
      (generate_fallback_summary ⟨"2026-01-01", fun _ => none⟩ {},
       { content := none,
         summary := some (generate_fallback_summary ⟨"2026-01-01", fun _ => none⟩ {}) }, 0) ∧
    jget (generate_fallback_summary ⟨"2026-01-01", fun _ => none⟩ {}) "importance" =
      some (.num 5) :=
  C3_no_content_fallback ⟨"2026-01-01", fun _ => none⟩ (fun _ => none) {} false ⟨none, none⟩ rfl

/-! ## C7 -/

/-- C7: the age-based sweep removes exactly the item subtrees whose mtime
    is strictly older than the cutoff, keeps every other item subtree, and
    leaves every source's raw snapshot file untouched. -/
theorem C7_eviction (cutoff : Int) (t : CacheTree) (fid : String) (fd : FeedDir)
    (hmem : (fid, fd) ∈ t.feeds) :
    ∃ fd', (fid, fd') ∈ (clean_old_cache cutoff t).feeds ∧
      fd'.rawfeed = fd.rawfeed ∧
      (∀ eid m, (eid, m) ∈ fd.entries → m < cutoff → ¬ (eid, m) ∈ fd'.entries) ∧
      (∀ eid m, (eid, m) ∈ fd.entries → ¬ m < cutoff → (eid, m) ∈ fd'.entries) := by
  refine ⟨{ fd with entries := fd.entries.filter (fun q => !(q.2 < cutoff)) }, ?_, rfl, ?_, ?_⟩
  · unfold clean_old_cache
    exact List.mem_map_of_mem _ hmem
  · intro eid m _ hold hmem'
    have := (List.mem_filter.mp hmem').2
    simp [hold] at this
  · intro eid m hm hnew
    exact List.mem_filter.mpr ⟨hm, by simpa using hnew⟩

/-- C7 witness: a two-item tree where only the stale item is evicted. -/
theorem C7_witness :
    ∃ fd', ("feed1", fd') ∈
        (clean_old_cache 60 ⟨[("feed1", ⟨some 50, [("old", 10), ("new", 100)]⟩)]⟩).feeds ∧
      fd'.rawfeed = (⟨some 50, [("old", 10), ("new", 100)]⟩ : FeedDir).rawfeed ∧
      (∀ eid m, (eid, m) ∈ (⟨some 50, [("old", 10), ("new", 100)]⟩ : FeedDir).entries →
        m < 60 → ¬ (eid, m) ∈ fd'.entries) ∧
      (∀ eid m, (eid, m) ∈ (⟨some 50, [("old", 10), ("new", 100)]⟩ : FeedDir).entries →
        ¬ m < 60 → (eid, m) ∈ fd'.entries) :=
  C7_eviction 60 ⟨[("feed1", ⟨some 50, [("old", 10), ("new", 100)]⟩)]⟩ "feed1"
    ⟨some 50, [("old", 10), ("new", 100)]⟩ (List.mem_singleton.mpr rfl)

/-! ## C8 -/

/-- C8 (counterexample): on an I/O failure the write operations return
    `None`, not the in-memory payload as the claim states. -/
theorem C8_counterexample :
    (cache_content .ioError ⟨none, none⟩ "payload").2 = none ∧
    ¬ (cache_content .ioError ⟨none, none⟩ "payload").2 = some "payload" ∧
    (cache_summary .ioError ⟨none, none⟩ [("summary", .str "s")]).2 = none :=
  ⟨rfl, by decide, rfl⟩

/-- C8 (amended): a failed content or summary write is logged and
    swallowed and leaves the cache unchanged, but the operation returns
    `None` to its caller; the in-memory payload is returned only on a
    successful write. -/
theorem C8_write_failure_dropped (c : EntryCache) (content : String) (s : JObj) :
    cache_content .ok c content = ({ c with content := some content }, some content) ∧
    cache_content .ioError c content = (c, none) ∧
    cache_summary .ok c s = ({ c with summary := some s }, some s) ∧
    cache_summary .ioError c s = (c, none) :=
  ⟨rfl, rfl, rfl, rfl⟩

/-! ## C10 -/

/-- C10 (counterexample): with the `timestamp` field absent and a large
    positive `max_age_hours` (1000000 hours), the snapshot is *not*
    classified as too old: the read returns the payload, refuting the
    claim's "for every positive max_age_hours". -/
theorem C10_counterexample :
    get_cached_feed 1700000000 (.data none) 1000000 = some none ∧ (0 : Int) < 1000000 :=
  ⟨rfl, by decide⟩

/-- C10 (amended): a snapshot payload without a `timestamp` field is
    treated as timestamp 0, so its age equals the current epoch time and
    the read returns absent whenever `max_age_hours * 3600` is below the
    current epoch time (every realistic positive `max_age_hours`). -/
theorem C10_missing_timestamp_stale (now max_age_hours : Int)
    (h : max_age_hours * 3600 < now) :
    get_cached_feed now (.data none) max_age_hours = none := by
  unfold get_cached_feed
  simp only [Option.getD_none]
  rw [if_pos]
  omega

/-- C10 witness: a concrete epoch time and freshness window. -/
theorem C10_witness : get_cached_feed 1700000000 (.data none) 6 = none :=
  C10_missing_timestamp_stale 1700000000 6 (by decide)

/-! ## C1 -/

/-- C1 (counterexample): an entry with a cached summary but no cached
    content: `summarize_entry` with `force = false` does not return the
    cached summary (it synthesizes and caches a fresh fallback), refuting
    the claim that a cached summary is always returned; it does make 0
    upstream invocations. -/
theorem C1_counterexample :
    (⟨none, some [("summary", JVal.str "the real cached summary")]⟩ : EntryCache).summary =
      some [("summary", JVal.str "the real cached summary")] ∧
    (summarize_entry ⟨"2026-01-01", fun _ => none⟩ (fun _ => none) { title := some "T" } false
      ⟨none, some [("summary", JVal.str "the real cached summary")]⟩).2.2 = 0 ∧
    ¬ (summarize_entry ⟨"2026-01-01", fun _ => none⟩ (fun _ => none) { title := some "T" } false
      ⟨none, some [("summary", JVal.str "the real cached summary")]⟩).1 =
      [("summary", JVal.str "the real cached summary")] := by
  refine ⟨rfl, rfl, ?_⟩
  intro h
  have h2 : jgetStr (summarize_entry ⟨"2026-01-01", fun _ => none⟩ (fun _ => none)
      { title := some "T" } false
      ⟨none, some [("summary", JVal.str "the real cached summary")]⟩).1 "summary" =
      jgetStr [("summary", JVal.str "the real cached summary")] "summary" :=
    congrArg (fun o => jgetStr o "summary") h
  exact absurd h2 (by decide)

/-- C1 (amended): when cached content exists as well, a cached summary is
    returned unchanged with zero upstream invocations; and two successive
    calls starting from cached content and no cached summary, whose first
    upstream response parses to a truthy record that is not an error
    sentinel, make exactly one upstream invocation in total. -/
theorem C1_cached_hit (env : Env) (stub : Nat → Option JVal) (e : Entry) (c : EntryCache)
    (t : String) (s obj : JObj) :
    (c.content = some t → t ≠ "" → c.summary = some s → s ≠ [] →
      summarize_entry env stub e false c = (s, c, 0)) ∧
    (c.content = some t → t ≠ "" → c.summary = none →
      stub 0 = some (.obj obj) → obj ≠ [] →
      ((∃ st, jget obj "summary" = some (JVal.str st) ∧ isSentinelSummary st = false) ∨
        jget obj "summary" = none) →
      (summarize_entry env stub e false c).2.2 = 1 ∧
      (summarize_entry env stub e false (summarize_entry env stub e false c).2.1).2.2 = 0) := by
  constructor
  · intro hc ht hs hne
    have hemp : s.isEmpty = false := List.isEmpty_eq_false.mpr hne
    simp only [summarize_entry, hc, hs, strTruthy]
    simp only [show (t != "") = true by simpa using ht, hemp]
    simp
  · intro hc ht hs h0 hne hsum
    have hemp : obj.isEmpty = false := List.isEmpty_eq_false.mpr hne
    have htt : (t != "") = true := by simpa using ht
    rcases hsum with ⟨st, hg, hb⟩ | hg
    · constructor
      · simp only [summarize_entry, hc, hs, strTruthy, htt]
        simp only [summarizeLoop, h0, jtruthy, hemp, hg, hb]
        simp
      · simp only [summarize_entry, hc, hs, strTruthy, htt]
        simp only [summarizeLoop, h0, jtruthy, hemp, hg, hb]
        simp [summarize_entry, strTruthy, hc, htt, jset_isEmpty_false]
    · constructor
      · simp only [summarize_entry, hc, hs, strTruthy, htt]
        simp only [summarizeLoop, h0, jtruthy, hemp, hg]
        simp
      · simp only [summarize_entry, hc, hs, strTruthy, htt]
        simp only [summarizeLoop, h0, jtruthy, hemp, hg]
        simp [summarize_entry, strTruthy, hc, htt, jset_isEmpty_false]

/-- C1 witness: a concrete cache hit (zero invocations) and a concrete
    pair of calls totalling one invocation. -/
theorem C1_witness :
    (summarize_entry ⟨"2026-01-01", fun _ => none⟩
        (fun _ => some (.obj [("importance", .num 7), ("summary", .str "fine")]))
        { title := some "T", link := some "http://x" } false
        ⟨some "txt", some [("importance", JVal.num 7)]⟩ =
      ([("importance", JVal.num 7)], ⟨some "txt", some [("importance", JVal.num 7)]⟩, 0)) ∧
    ((summarize_entry ⟨"2026-01-01", fun _ => none⟩
        (fun _ => some (.obj [("importance", .num 7), ("summary", .str "fine")]))
        { title := some "T", link := some "http://x" } false ⟨some "txt", none⟩).2.2 = 1 ∧
      (summarize_entry ⟨"2026-01-01", fun _ => none⟩
        (fun _ => some (.obj [("importance", .num 7), ("summary", .str "fine")]))
        { title := some "T", link := some "http://x" } false
        (summarize_entry ⟨"2026-01-01", fun _ => none⟩
          (fun _ => some (.obj [("importance", .num 7), ("summary", .str "fine")]))
          { title := some "T", link := some "http://x" } false ⟨some "txt", none⟩).2.1).2.2 = 0) :=
  ⟨(C1_cached_hit ⟨"2026-01-01", fun _ => none⟩
      (fun _ => some (.obj [("importance", .num 7), ("summary", .str "fine")]))
      { title := some "T", link := some "http://x" } ⟨some "txt", some [("importance", JVal.num 7)]⟩
      "txt" [("importance", JVal.num 7)] []).1 rfl (by decide) rfl (List.cons_ne_nil _ _),
   (C1_cached_hit ⟨"2026-01-01", fun _ => none⟩
      (fun _ => some (.obj [("importance", .num 7), ("summary", .str "fine")]))
      { title := some "T", link := some "http://x" } ⟨some "txt", none⟩
      "txt" [] [("importance", .num 7), ("summary", .str "fine")]).2 rfl (by decide) rfl rfl
      (List.cons_ne_nil _ _) (.inl ⟨"fine", rfl, by decide⟩)⟩

/-! ## C4 -/

theorem mem_trimList {c : Char} {cs : List Char} (h : c ∈ trimList cs) : c ∈ cs := by
  unfold trimList at h
  rw [List.mem_reverse] at h
  have h1 := List.Sublist.mem h (List.dropWhile_sublist _)
  rw [List.mem_reverse] at h1
  exact List.Sublist.mem h1 (List.dropWhile_sublist _)

set_option maxRecDepth 400000 in
/-- C4: the extractor fails on a blob with no `{`, fails on a blob with no
    `}`, and on the canonical noisy inputs slices between the outermost
    braces, leniently decodes (tolerating trailing commas, comments and
    identifier keys) and re-encodes strictly. -/
theorem C4_resilient_extractor (s : String) :
    ((∀ c ∈ s.data, c ≠ '\x7b') → extract_json_from_string s = "") ∧
    ((∀ c ∈ s.data, c ≠ '\x7d') → extract_json_from_string s = "") ∧
    extract_json_from_string "Sure! ```json\n\x7b\"a\":1,\x7d\n```" = "\x7b\x22a\x22:1\x7d" ∧
    extract_json_from_string " \x7b // comment\n \"a\" : [1, 2,], b: \"x\", \x7d tail" =
      "\x7b\x22a\x22:[1,2],\x22b\x22:\x22x\x22\x7d" := by
  refine ⟨?_, ?_, by decide, by decide⟩
  · intro h
    have hfi : (trimList s.data).findIdx? (· = '\x7b') = none := by
      rw [List.findIdx?_eq_none_iff]
      intro x hx
      simpa using h x (mem_trimList hx)
    simp only [extract_json_from_string, hfi]
  · intro h
    have hrf : rfindIdx (trimList s.data) '\x7d' = none := by
      unfold rfindIdx
      rw [List.findIdx?_eq_none_iff.mpr ?_]
      · rfl
      · intro x hx
        rw [List.mem_reverse] at hx
        simpa using h x (mem_trimList hx)
    cases hfi : (trimList s.data).findIdx? (· = '\x7b') with
    | none => simp only [extract_json_from_string, hfi]
    | some i => simp only [extract_json_from_string, hfi, hrf]

/-- C4 witness: the failure cases applied to concrete brace-free blobs. -/
theorem C4_witness :
    extract_json_from_string "abc" = "" ∧ extract_json_from_string "xyz" = "" :=
  ⟨(C4_resilient_extractor "abc").1 (by decide), (C4_resilient_extractor "xyz").2.1 (by decide)⟩

/-! ## C5 -/

set_option maxRecDepth 400000 in
/-- C5 (counterexample): an entry with no title, locator or id gets the
    key `entry_` + first 8 hex characters of the hash of the fixed string
    `'missing_id'`, which differs from `entry_` + the hash of the empty
    string that the claim states. -/
theorem C5_counterexample :
    create_entry_cache_key {} = "entry_6aacd5e5" ∧
    sha1First8 "" = "da39a3ee" ∧
    ¬ create_entry_cache_key {} = "entry_" ++ sha1First8 "" := by
  exact ⟨by decide, by decide, by decide⟩

set_option maxRecDepth 400000 in
/-- C5 (amended): for an item with no truthy title, no truthy locator and
    no id, the derivation never raises and produces the fixed token
    `entry_` plus the first 8 hex characters of the hash of the fixed
    fallback string `'missing_id'`; for every item the derived identity is
    a non-empty string. -/
theorem C5_fallback_identity (e : Entry) :
    (strTruthy e.title = false → strTruthy e.link = false → e.id.getD "" = "" →
      create_entry_cache_key e = "entry_" ++ sha1First8 "missing_id") ∧
    ¬ create_entry_cache_key e = "" := by
  constructor
  · intro ht hl hi
    have hu : (if strTruthy e.link then e.link.getD "" else e.id.getD "") = "" := by
      rw [hl, if_neg (by simp), hi]
    simp only [create_entry_cache_key, ht, hu, Bool.not_false, if_true]
    decide
  · cases htt : strTruthy e.title with
    | false =>
      simp only [create_entry_cache_key, htt, Bool.not_false, if_true]
      exact append_ne_empty_left (by decide)
    | true =>
      simp only [create_entry_cache_key, htt, Bool.not_true, Bool.false_eq_true, if_false]
      exact append_ne_empty_left (append_ne_empty_left (safe_filename_ne_empty _))

set_option maxRecDepth 400000 in
/-- C5 witness: the fallback branch evaluated on the empty entry. -/
theorem C5_witness :
    create_entry_cache_key {} = "entry_" ++ sha1First8 "missing_id" ∧
    ¬ create_entry_cache_key {} = "" :=
  ⟨(C5_fallback_identity {}).1 rfl rfl rfl, (C5_fallback_identity {}).2⟩

/-! ## C6 -/

theorem collapse_foldr_head (d : Char) (r : List Char) :
    ((d :: r).foldr (fun c acc => if c = '_' && acc.head? = some '_' then acc else c :: acc)
      []).head? = some d := by
  rw [List.foldr_cons]
  split
  · rename_i h
    rw [Bool.and_eq_true] at h
    rw [of_decide_eq_true h.2, of_decide_eq_true h.1]
  · simp

theorem collapse_eq_foldr (cs : List Char) :
    collapseUnderscores cs =
      cs.foldr (fun c acc => if c = '_' && acc.head? = some '_' then acc else c :: acc) [] := by
  induction cs with
  | nil => rfl
  | cons c rest ih =>
    cases rest with
    | nil => simp [collapseUnderscores]
    | cons d r =>
      rw [List.foldr_cons, ← ih]
      have hh := collapse_foldr_head d r
      rw [← ih] at hh
      simp only [collapseUnderscores, hh]
      by_cases h1 : c = '_' <;> by_cases h2 : d = '_' <;> simp [h1, h2]

/-- C6 (amended): `safe_filename` NFKD-normalizes, replaces every
    character that is neither a word character (`\w`, which keeps Unicode
    letters and digits) nor `.` nor `-` by `_`, collapses runs of `_`,
    trims `_` at both ends, substitutes `untitled` for an empty result and
    truncates to 100 characters; the result is never empty and never
    longer than 100 characters. -/
theorem C6_sanitization (s : String) :
    safe_filename s = sanitizeSpec s ∧ safe_filename s ≠ "" ∧
      (safe_filename s).data.length ≤ 100 := by
  refine ⟨?_, safe_filename_ne_empty s, safe_filename_le_100 s⟩
  simp only [safe_filename, sanitizeSpec, subNonWord, stripUnderscores, ← collapse_eq_foldr,
    List.isEmpty_iff]

set_option maxRecDepth 100000 in
/-- C6 (counterexample): the CJK letter `中` is in Python's `\w` class, so
    `safe_filename` keeps it, while the claim's ASCII-only rule
    `[A-Za-z0-9_.-]` would replace it and yield `untitled`. -/
theorem C6_counterexample :
    safe_filename "中" = "中" ∧ claimedSanitizeC6 "中" = "untitled" ∧
    ¬ safe_filename "中" = claimedSanitizeC6 "中" :=
  ⟨by decide, by decide, by decide⟩

/-! ## C9 -/

theorem buildBatch_all_none (cache : String → String → Option JObj) (entries : List Entry)
    (h : ∀ e ∈ entries, entryDigestItem cache e = .ok none) :
    buildBatch cache entries = .ok [] := by
  induction entries with
  | nil => rfl
  | cons e rest ih =>
    have he := h e (List.mem_cons_self e rest)
    simp only [buildBatch, he]
    exact ih (fun x hx => h x (List.mem_cons_of_mem e hx))

/-- C9: with no qualifying cached summary the digest generator returns the
    explicit empty-result shape with zero upstream invocations; and when
    the first upstream response decodes to an object with a `news` key (and
    no `stories` key), it returns that object with `news` renamed to
    `stories` and is otherwise unmodified, after one invocation. -/
theorem C9_digest (cache : String → String → Option JObj) (stub : Nat → Option JVal)
    (entries : List Entry) (o : JObj) (v : JVal) :
    ((∀ e ∈ entries, entryDigestItem cache e = .ok none) →
      generate_digest cache stub entries =
        .ok [("high_impact", JVal.arr []), ("significant", JVal.arr [])] 0) ∧
    ((∃ b bs, buildBatch cache entries = .ok (b :: bs)) →
      stub 0 = some (.obj o) → jget o "news" = some v → jhas o "stories" = false →
      generate_digest cache stub entries = .ok (jerase o "news" ++ [("stories", v)]) 1) := by
  constructor
  · intro h
    simp only [generate_digest, buildBatch_all_none cache entries h]
  · intro hex hstub hnews hnost
    rcases hex with ⟨b, bs, hb⟩
    have hne := jget_isEmpty_false hnews
    have hhas := jhas_of_jget hnews
    have hset : jset (jerase o "news") "stories" v = jerase o "news" ++ [("stories", v)] := by
      unfold jset
      rw [if_neg]
      simp only [jerase]
      rw [jhas_filter_false _ hnost]
      simp
    simp only [generate_digest, hb]
    simp only [digestLoop, hstub, jtruthy, hne, hhas, if_true, hnews, Option.getD_some, hset]
    have htr : (jerase o "news" ++ [("stories", v)]).isEmpty = false := by
      simp [jerase]
    simp only [jtruthy, htr, jhas_append_singleton, Bool.not_false, Bool.and_self, if_true]

/-- C9 witness: an empty batch (one low-importance cached summary) and a
    one-entry batch with a stub answering `news`. -/
theorem C9_witness :
    generate_digest (fun _ _ => some [("importance", JVal.num 3), ("summary", JVal.str "meh")])
        (fun _ => none) [{ title := some "T" }] =
      .ok [("high_impact", JVal.arr []), ("significant", JVal.arr [])] 0 ∧
    generate_digest (fun _ _ => some [("importance", JVal.num 9)])
        (fun _ => some (.obj [("news", .arr [])])) [{ title := some "T" }] =
      .ok (jerase [("news", JVal.arr [])] "news" ++ [("stories", JVal.arr [])]) 1 :=
  ⟨(C9_digest (fun _ _ => some [("importance", JVal.num 3), ("summary", JVal.str "meh")])
      (fun _ => none) [{ title := some "T" }] [] .null).1
      (fun e he => by
        rw [List.mem_singleton] at he
        subst he
        rfl),
   (C9_digest (fun _ _ => some [("importance", JVal.num 9)])
      (fun _ => some (.obj [("news", .arr [])])) [{ title := some "T" }]
      [("news", JVal.arr [])] (JVal.arr [])).2 ⟨_, _, rfl⟩ rfl rfl rfl⟩
